import Mathlib

/-!
Shallow embedding of the repository's single source file, the Pulumi
program `WIP/sample-pulumi.py`, which declares an S3 Express One Zone
directory bucket, a Glue catalog database and table, an IAM role and
policy for Kinesis Firehose, and a Firehose delivery stream, then
exports a handful of values.

The Python program is a straight-line sequence of resource declarations.
Values the cloud provider supplies at run time (the region, the account
id, and the provider-reported outputs of the declared resources) are
collected in an `Env` record; every string the program derives from them
is embedded as a Lean function of that record, mirroring the
`pulumi.Output.concat` calls and Python f-strings of the source.
-/

namespace SamplePulumi

/-- Provider-supplied values the program reads: `aws.get_region().name`,
`aws.get_caller_identity().account_id`, and the provider-reported outputs
of the declared resources that are consumed downstream
(`s3_express_directory_bucket.bucket_name`, `glue_database.catalog_id`,
`glue_database.name`, `glue_table.name`, `firehose_role.arn`,
`firehose_stream.name`, `firehose_stream.arn`). -/
structure Env where
  region : String
  accountId : String
  bucketName : String
  catalogId : String
  dbName : String
  tblName : String
  roleArn : String
  streamName : String
  streamArn : String

/-- `availability_zone_id = "use1-az4"` (line 13). -/
def availability_zone_id : String := "use1-az4"

/-- `bucket_base_name = "my-s3-table-bucket"` (line 19). -/
def bucket_base_name : String := "my-s3-table-bucket"

/-- `s3_express_bucket_name = f"{bucket_base_name}--{availability_zone_id}--x-s3"` (line 20). -/
def s3_express_bucket_name : String :=
  bucket_base_name ++ "--" ++ availability_zone_id ++ "--x-s3"

/-- `database_name = "s3_tables_db"` (line 22). -/
def database_name : String := "s3_tables_db"

/-- `table_name = "web_events_s3_table"` (line 23). -/
def table_name : String := "web_events_s3_table"

/-- `firehose_stream_name = "s3-tables-delivery-stream"` (line 24). -/
def firehose_stream_name : String := "s3-tables-delivery-stream"

/-- The `location` argument of the directory bucket declaration. -/
structure DirectoryBucketLocation where
  name : String
  type : String

/-- The `aws_native.s3express.DirectoryBucket` declaration's arguments. -/
structure DirectoryBucket where
  location : DirectoryBucketLocation
  bucket_name : String
  data_redundancy : String

/-- `s3_express_directory_bucket` (lines 28-38). -/
def s3_express_directory_bucket : DirectoryBucket :=
  { location := { name := availability_zone_id, type := "AvailabilityZone" }
    bucket_name := s3_express_bucket_name
    data_redundancy := "SingleAvailabilityZone" }

/-- `s3_express_bucket_arn` (line 42): `pulumi.Output.concat("arn:aws:s3express:",
aws_region, ":", account_id, ":bucket/", s3_express_directory_bucket.bucket_name)`. -/
def s3_express_bucket_arn (env : Env) : String :=
  "arn:aws:s3express:" ++ env.region ++ ":" ++ env.accountId ++ ":bucket/" ++ env.bucketName

/-- `s3_express_table_location` (line 44): `pulumi.Output.concat("s3express://",
s3_express_directory_bucket.bucket_name, "/", table_name, "/")`. -/
def s3_express_table_location (env : Env) : String :=
  "s3express://" ++ env.bucketName ++ "/" ++ table_name ++ "/"

/-- Line 45: `pulumi.Output.concat("s3express://",
s3_express_directory_bucket.bucket_name, "/firehose-errors/")`
(source name: `firehose_error_output_prefix`). -/
def firehose_error_output_location (env : Env) : String :=
  "s3express://" ++ env.bucketName ++ "/firehose-errors/"

/-- The `aws.glue.CatalogDatabase` declaration's arguments. -/
structure CatalogDatabase where
  name : String

/-- `glue_database` (lines 49-50). -/
def glue_database : CatalogDatabase := { name := database_name }

/-- `partition_lambda_arn = "arn:aws:lambda:..."` (line 60), a placeholder. -/
def partition_lambda_arn : String := "arn:aws:lambda:..."

/-- `partition_lambda_role_arn = "arn:aws:iam:..."` (line 61), a placeholder. -/
def partition_lambda_role_arn : String := "arn:aws:iam:..."

/-- A `(name, type)` column argument, used for columns and partition keys. -/
structure Column where
  name : String
  type : String

/-- The `serde_info` argument of the storage descriptor. -/
structure SerdeInfo where
  name : String
  serialization_library : String

/-- The `storage_descriptor` argument of the Glue table declaration. -/
structure StorageDescriptor where
  location : String
  input_format : String
  output_format : String
  serde_info : SerdeInfo
  columns : List Column

/-- The `aws.glue.CatalogTable` declaration's arguments. -/
structure CatalogTable where
  database_name : String
  name : String
  table_type : String
  storage_descriptor : StorageDescriptor
  partition_keys : List Column
  parameters : List (String × String)

/-- `glue_table` (lines 67-105). Its `database_name` argument is
`glue_database.name`, the provider-reported output `env.dbName`. -/
def glue_table (env : Env) : CatalogTable :=
  { database_name := env.dbName
    name := table_name
    table_type := "ICEBERG"
    storage_descriptor :=
      { location := s3_express_table_location env
        input_format := "org.apache.hadoop.mapred.TextInputFormat"
        output_format := "org.apache.hadoop.hive.ql.io.HiveIgnoreKeyTextOutputFormat"
        serde_info :=
          { name := "IcebergSerDe"
            serialization_library := "org.apache.hadoop.hive.serde2.lazy.LazySimpleSerDe" }
        columns :=
          [ { name := "site_id", type := "string" }
          , { name := "timestamp", type := "timestamp" }
          , { name := "event_data", type := "string" }
          , { name := "date", type := "date" } ] }
    partition_keys :=
      [ { name := "site_id", type := "string" }
      , { name := "date", type := "date" } ]
    parameters :=
      [ ("table_type", "ICEBERG")
      , ("format", "parquet")
      , ("write.parquet.compression-codec", "snappy") ] }

/-- One statement of the role's assume-role policy. -/
structure AssumeStatement where
  action : String
  effect : String
  principal_service : String

/-- The `aws.iam.Role` declaration's arguments. -/
structure IamRole where
  assume_role_policy : List AssumeStatement

/-- `firehose_role` (lines 109-117). -/
def firehose_role : IamRole :=
  { assume_role_policy :=
      [ { action := "sts:AssumeRole", effect := "Allow"
          principal_service := "firehose.amazonaws.com" } ] }

/-- One statement of the rendered IAM policy document. -/
structure PolicyStatement where
  effect : String
  actions : List String
  resources : List String

/-- The body of the `.apply(lambda args: ...)` of `firehose_policy_document`
(lines 127-169). `arg0`..`arg5` are the members of the `pulumi.Output.all`
tuple in source order: the bucket ARN, the bucket name, the Lambda
placeholder ARN, the catalog id, the database name and the table name;
`region` and `accountId` are the module-level `aws_region` and `account_id`
the lambda closes over. The Lambda-invocation statement is commented out
in the source, so `arg1` and `arg2` are never read. -/
def firehose_policy_statements (arg0 arg1 arg2 arg3 arg4 arg5 : String)
    (region accountId : String) : List PolicyStatement :=
  [ { effect := "Allow"
      actions := ["s3express:CreateSession", "s3express:PutObject"]
      resources := [arg0, arg0 ++ "/*"] }
  , { effect := "Allow"
      actions := ["glue:GetDatabase", "glue:GetTable", "glue:UpdateTable"]
      resources :=
        [ "arn:aws:glue:" ++ region ++ ":" ++ arg3 ++ ":catalog"
        , "arn:aws:glue:" ++ region ++ ":" ++ arg3 ++ ":database/" ++ arg4
        , "arn:aws:glue:" ++ region ++ ":" ++ arg3 ++ ":table/" ++ arg4 ++ "/" ++ arg5 ] }
  , { effect := "Allow"
      actions := ["logs:CreateLogGroup", "logs:CreateLogStream", "logs:PutLogEvents"]
      resources :=
        [ "arn:aws:logs:" ++ region ++ ":" ++ accountId
            ++ ":log-group:/aws/kinesisfirehose/" ++ firehose_stream_name ++ ":*" ] } ]

/-- `firehose_policy_document` (lines 120-169): the rendered policy, with the
`pulumi.Output.all` tuple filled in exactly as in the source. -/
def firehose_policy_document (env : Env) : List PolicyStatement :=
  firehose_policy_statements (s3_express_bucket_arn env) env.bucketName
    partition_lambda_arn env.catalogId env.dbName env.tblName env.region env.accountId

/-- The `cloudwatch_logging_options` argument (lines 197-201). -/
structure CloudwatchLoggingOptions where
  enabled : Bool
  log_group_name : String
  log_stream_name : String

/-- The `schema_configuration` argument (lines 232-238). -/
structure SchemaConfiguration where
  role_arn : String
  database_name : String
  table_name : String
  region : String

/-- The `data_format_conversion_configuration` argument (lines 217-239); the
input and output format configurations each select a single serializer, kept
here as its name, plus the Parquet compression parameter. -/
structure DataFormatConversionConfiguration where
  enabled : Bool
  input_deserializer : String
  output_serializer : String
  output_compression : String
  schema_configuration : SchemaConfiguration

/-- The `dynamic_partitioning_configuration` argument (lines 242-247). -/
structure DynamicPartitioningConfiguration where
  enabled : Bool
  retry_duration_in_seconds : Nat

/-- The `extended_s3_configuration` argument (lines 184-248); the source field
named `prefix` is embedded as `prefixPath`. -/
structure ExtendedS3Configuration where
  role_arn : String
  bucket_arn : String
  prefixPath : String
  buffering_interval : Nat
  buffering_size : Nat
  compression_format : String
  cloudwatch_logging_options : CloudwatchLoggingOptions
  data_format_conversion_configuration : DataFormatConversionConfiguration
  dynamic_partitioning_configuration : DynamicPartitioningConfiguration

/-- The `aws.kinesis.FirehoseDeliveryStream` declaration's arguments. -/
structure FirehoseDeliveryStream where
  name : String
  destination : String
  extended_s3_configuration : ExtendedS3Configuration

/-- `firehose_stream` (lines 180-248). `role_arn` is `firehose_role.arn`
(`env.roleArn`); the schema configuration's `database_name` and `table_name`
are `glue_database.name` (`env.dbName`) and `glue_table.name` (`env.tblName`). -/
def firehose_stream (env : Env) : FirehoseDeliveryStream :=
  { name := firehose_stream_name
    destination := "extended_s3"
    extended_s3_configuration :=
      { role_arn := env.roleArn
        bucket_arn := s3_express_bucket_arn env
        prefixPath := table_name ++ "/"
        buffering_interval := 60
        buffering_size := 5
        compression_format := "UNCOMPRESSED"
        cloudwatch_logging_options :=
          { enabled := true
            log_group_name := "/aws/kinesisfirehose/" ++ firehose_stream_name
            log_stream_name := "S3ExpressDelivery" }
        data_format_conversion_configuration :=
          { enabled := true
            input_deserializer := "OpenXJsonSerDe"
            output_serializer := "ParquetSerDe"
            output_compression := "SNAPPY"
            schema_configuration :=
              { role_arn := env.roleArn
                database_name := env.dbName
                table_name := env.tblName
                region := env.region } }
        dynamic_partitioning_configuration :=
          { enabled := true, retry_duration_in_seconds := 60 } } }

/-- The `pulumi.export` calls (lines 252-258), in order. -/
def exports (env : Env) : List (String × String) :=
  [ ("s3_express_bucket_name", env.bucketName)
  , ("s3_express_bucket_arn", s3_express_bucket_arn env)
  , ("s3_table_location", s3_express_table_location env)
  , ("glue_database_name", env.dbName)
  , ("glue_table_name", env.tblName)
  , ("firehose_delivery_stream_name", env.streamName)
  , ("firehose_delivery_stream_arn", env.streamArn) ]

/-- Everything the program produces: the resource declarations and the
exported outputs. -/
structure Program where
  s3_express_directory_bucket : DirectoryBucket
  glue_database : CatalogDatabase
  glue_table : CatalogTable
  firehose_role : IamRole
  firehose_policy_document : List PolicyStatement
  firehose_stream : FirehoseDeliveryStream
  firehose_error_output_location : String
  exports : List (String × String)

/-- The whole program as a function of the provider-supplied values. -/
def program (env : Env) : Program :=
  { s3_express_directory_bucket := s3_express_directory_bucket
    glue_database := glue_database
    glue_table := glue_table env
    firehose_role := firehose_role
    firehose_policy_document := firehose_policy_document env
    firehose_stream := firehose_stream env
    firehose_error_output_location := firehose_error_output_location env
    exports := exports env }

/-- A concrete valuation of the provider-supplied values, for witnesses. -/
def sampleEnv : Env :=
  { region := "us-east-1"
    accountId := "123456789012"
    bucketName := s3_express_bucket_name
    catalogId := "123456789012"
    dbName := database_name
    tblName := table_name
    roleArn := "arn:aws:iam::123456789012:role/firehoseS3ExpressRole"
    streamName := firehose_stream_name
    streamArn := "arn:aws:firehose:us-east-1:123456789012:deliverystream/s3-tables-delivery-stream" }

/-- If a string `u` does not start with `p` (its first characters differ from
`p`'s), then no string of the form `p ++ t` equals `u`. -/
theorem append_ne_of_take_ne (p t u : String)
    (h : u.data.take p.data.length ≠ p.data) : p ++ t ≠ u := by
  intro he
  exact h (by rw [← he, String.data_append, List.take_left])

/-- C1: the Glue catalog table's storage descriptor location is
`"s3express://" ++ bucket name ++ "/" ++ "web_events_s3_table" ++ "/"`, and
this same string is exported under the key `s3_table_location`. -/
theorem glue_table_location_derived_from_bucket (env : Env) :
    (glue_table env).storage_descriptor.location
        = "s3express://" ++ env.bucketName ++ "/" ++ "web_events_s3_table" ++ "/"
      ∧ ("s3_table_location", (glue_table env).storage_descriptor.location) ∈ exports env :=
  ⟨rfl, List.Mem.tail _ (List.Mem.tail _ (List.Mem.head _))⟩

/-- C2: for every valuation of the provider-supplied values, the three
statements of the rendered policy have exactly the resource lists
`[bucket ARN, bucket ARN ++ "/*"]`, the three Glue ARNs for the catalog,
the database and the table, and the log-group ARN for the stream name. -/
theorem policy_resource_lists (env : Env) :
    List.map PolicyStatement.resources (firehose_policy_document env) =
      [ [s3_express_bucket_arn env, s3_express_bucket_arn env ++ "/*"]
      , [ "arn:aws:glue:" ++ env.region ++ ":" ++ env.catalogId ++ ":catalog"
        , "arn:aws:glue:" ++ env.region ++ ":" ++ env.catalogId ++ ":database/" ++ env.dbName
        , "arn:aws:glue:" ++ env.region ++ ":" ++ env.catalogId ++ ":table/"
            ++ env.dbName ++ "/" ++ env.tblName ]
      , [ "arn:aws:logs:" ++ env.region ++ ":" ++ env.accountId
            ++ ":log-group:/aws/kinesisfirehose/" ++ firehose_stream_name ++ ":*" ] ] := rfl

/-- C3: the S3 Express bucket ARN is
`"arn:aws:s3express:" ++ region ++ ":" ++ account id ++ ":bucket/" ++ bucket name`,
and exactly this value (with its `"/*"` extension) makes up the resources of
the policy document's S3 Express statement, its first statement. -/
theorem bucket_arn_feeds_policy_document (env : Env) :
    s3_express_bucket_arn env
        = "arn:aws:s3express:" ++ env.region ++ ":" ++ env.accountId
            ++ ":bucket/" ++ env.bucketName
      ∧ (firehose_policy_document env).head? = some
          { effect := "Allow"
            actions := ["s3express:CreateSession", "s3express:PutObject"]
            resources := [s3_express_bucket_arn env, s3_express_bucket_arn env ++ "/*"] } :=
  ⟨rfl, rfl⟩

/-- C4: in the Firehose stream declaration, the extended-S3 `role_arn` and the
schema configuration's `role_arn` both equal the Firehose role's ARN, and the
schema configuration's `database_name` and `table_name` equal the Glue
database's name and the Glue table's name. -/
theorem stream_embeds_role_arn_and_table_coordinates (env : Env) :
    (firehose_stream env).extended_s3_configuration.role_arn = env.roleArn
      ∧ (firehose_stream env).extended_s3_configuration.data_format_conversion_configuration.schema_configuration.role_arn
          = env.roleArn
      ∧ (firehose_stream env).extended_s3_configuration.data_format_conversion_configuration.schema_configuration.database_name
          = env.dbName
      ∧ (firehose_stream env).extended_s3_configuration.data_format_conversion_configuration.schema_configuration.table_name
          = env.tblName :=
  ⟨rfl, rfl, rfl, rfl⟩

/-- C5: the bucket name is `bucket_base_name ++ "--" ++ availability_zone_id
++ "--x-s3"`, concretely `"my-s3-table-bucket--use1-az4--x-s3"`, and the
directory bucket declaration uses exactly this name with its location name
equal to the availability zone id `"use1-az4"`. -/
theorem bucket_name_format :
    s3_express_bucket_name = bucket_base_name ++ "--" ++ availability_zone_id ++ "--x-s3"
      ∧ s3_express_bucket_name = "my-s3-table-bucket--use1-az4--x-s3"
      ∧ s3_express_directory_bucket.bucket_name = s3_express_bucket_name
      ∧ s3_express_directory_bucket.location.name = availability_zone_id
      ∧ availability_zone_id = "use1-az4" :=
  ⟨rfl, rfl, rfl, rfl, rfl⟩

/-- C6: the directory bucket is declared single-availability-zone: its
`data_redundancy` is `"SingleAvailabilityZone"` and its location is one
availability-zone reference (`type` `"AvailabilityZone"`, `name` the AZ id). -/
theorem directory_bucket_single_availability_zone :
    s3_express_directory_bucket.data_redundancy = "SingleAvailabilityZone"
      ∧ s3_express_directory_bucket.location.type = "AvailabilityZone"
      ∧ s3_express_directory_bucket.location.name = availability_zone_id :=
  ⟨rfl, rfl, rfl⟩

/-- C7: the rendered policy has exactly three statements, the Lambda
placeholder ARN occurs in no statement's resource list, and the rendered
policy does not depend on what is passed in the Lambda-ARN slot of the
`pulumi.Output.all` tuple. -/
theorem lambda_placeholder_never_reaches_policy (env : Env) :
    (firehose_policy_document env).length = 3
      ∧ partition_lambda_arn
          ∉ (List.map PolicyStatement.resources (firehose_policy_document env)).flatten
      ∧ ∀ other : String,
          firehose_policy_statements (s3_express_bucket_arn env) env.bucketName other
              env.catalogId env.dbName env.tblName env.region env.accountId
            = firehose_policy_document env := by
  refine ⟨rfl, ?_, fun other => rfl⟩
  intro hm
  simp only [firehose_policy_document, firehose_policy_statements, s3_express_bucket_arn,
    partition_lambda_arn, List.map_cons, List.map_nil, List.flatten_cons, List.flatten_nil,
    List.mem_append, List.mem_cons, List.not_mem_nil, or_false, String.append_assoc] at hm
  rcases hm with (h | h) | (h | h | h) | h
  · exact append_ne_of_take_ne "arn:aws:s3express:" _ _ (by decide) h.symm
  · exact append_ne_of_take_ne "arn:aws:s3express:" _ _ (by decide) h.symm
  · exact append_ne_of_take_ne "arn:aws:glue:" _ _ (by decide) h.symm
  · exact append_ne_of_take_ne "arn:aws:glue:" _ _ (by decide) h.symm
  · exact append_ne_of_take_ne "arn:aws:glue:" _ _ (by decide) h.symm
  · exact append_ne_of_take_ne "arn:aws:logs:" _ _ (by decide) h.symm

/-- C8: the program is deterministic: two runs over equal provider-supplied
values produce equal resource declarations and equal exported outputs. -/
theorem program_deterministic (env1 env2 : Env) (h : env1 = env2) :
    program env1 = program env2 :=
  congrArg program h

/-- C8 witness: determinism instantiated at a concrete valuation. -/
theorem program_deterministic_witness :
    sampleEnv = sampleEnv ∧ program sampleEnv = program sampleEnv :=
  ⟨rfl, program_deterministic sampleEnv sampleEnv rfl⟩

/-- C9: the stream's extended-S3 object key path (source field `prefix`) is
`table_name ++ "/"`, concretely `"web_events_s3_table/"`, and the Glue
table's storage location is `"s3express://" ++ bucket name ++ "/"` followed
by exactly that path. -/
theorem stream_path_aligns_with_table_location (env : Env) :
    (firehose_stream env).extended_s3_configuration.prefixPath = table_name ++ "/"
      ∧ (firehose_stream env).extended_s3_configuration.prefixPath = "web_events_s3_table/"
      ∧ (glue_table env).storage_descriptor.location
          = "s3express://" ++ env.bucketName ++ "/"
              ++ (firehose_stream env).extended_s3_configuration.prefixPath := by
  refine ⟨rfl, rfl, ?_⟩
  show "s3express://" ++ env.bucketName ++ "/" ++ table_name ++ "/"
      = "s3express://" ++ env.bucketName ++ "/" ++ (table_name ++ "/")
  rw [String.append_assoc]

/-- C10: the log group the stream's CloudWatch logging options name,
`"/aws/kinesisfirehose/" ++ stream name`, is the same log group named inside
the resource ARN of the policy's logs statement, its last statement. -/
theorem log_group_consistent (env : Env) :
    (firehose_stream env).extended_s3_configuration.cloudwatch_logging_options.log_group_name
        = "/aws/kinesisfirehose/" ++ firehose_stream_name
      ∧ (List.map PolicyStatement.resources (firehose_policy_document env)).getLast?
          = some
            [ "arn:aws:logs:" ++ env.region ++ ":" ++ env.accountId ++ ":log-group:"
                ++ (firehose_stream env).extended_s3_configuration.cloudwatch_logging_options.log_group_name
                ++ ":*" ] := by
  refine ⟨rfl, ?_⟩
  have h : "arn:aws:logs:" ++ env.region ++ ":" ++ env.accountId
        ++ ":log-group:/aws/kinesisfirehose/" ++ firehose_stream_name ++ ":*"
      = "arn:aws:logs:" ++ env.region ++ ":" ++ env.accountId ++ ":log-group:"
        ++ ("/aws/kinesisfirehose/" ++ firehose_stream_name) ++ ":*" := by
    rw [show (":log-group:/aws/kinesisfirehose/" : String)
          = ":log-group:" ++ "/aws/kinesisfirehose/" from rfl]
    simp only [String.append_assoc]
  show some
      [ "arn:aws:logs:" ++ env.region ++ ":" ++ env.accountId
          ++ ":log-group:/aws/kinesisfirehose/" ++ firehose_stream_name ++ ":*" ]
    = some
      [ "arn:aws:logs:" ++ env.region ++ ":" ++ env.accountId ++ ":log-group:"
          ++ ("/aws/kinesisfirehose/" ++ firehose_stream_name) ++ ":*" ]
  rw [h]

end SamplePulumi
